import Mathlib

/-!
Shallow embedding of the canvas-parallax library.

The modern implementation (class CanvasParallax and its subclasses
CanvasParallaxDocument, CanvasParallaxTop, plus the registry loop at the
bottom of the file) is embedded over rational scroll values.  JS numbers on
the inputs of interest are rationals, and Math.round rounds half toward
positive infinity, which is exactly Mathlib round on the rationals.

Browser state (document scroll, window.innerHeight) is passed explicitly;
a draw call on the canvas 2d context is modelled as an Option DrawCall
result of the step, holding the two drawImage coordinates.
-/

/-- Start mode of an instance, from the data-start attribute; it selects the
subclass instantiated by the registry (document, passBottom, passTop). -/
inductive StartMode
  | passBottom
  | document
  | passTop
deriving DecidableEq, Repr

/-- Options object built by the registry: data-speed, data-offset, data-start. -/
structure ParallaxOptions where
  start : StartMode
  offset : ℚ
  speed : ℚ
deriving DecidableEq, Repr

/-- Mutable per-instance fields of a CanvasParallax object that the scroll,
orientation and render logic reads or writes. -/
structure ParallaxState where
  options : ParallaxOptions
  src : String
  top : ℚ
  beta : ℚ
  gamma : ℚ
  start : ℚ
  latestKnownScroll : ℚ
  isImageLoaded : Bool
  isPainting : Bool
  imageHeight : ℚ
deriving DecidableEq, Repr

/-- Arguments of the drawImage call: context.drawImage(image, dx, dy). -/
structure DrawCall where
  dx : ℚ
  dy : ℚ
deriving DecidableEq, Repr

namespace CanvasParallax

/-- Constructor of CanvasParallax: stores options, src and top, zeroes the
tilt pair, sets start to top minus window.innerHeight (w), zeroes
latestKnownScroll and clears the two flags.  The image object is freshly
created by loadImage, so its height reads 0 until the load event. -/
def construct (options : ParallaxOptions) (src : String) (top w : ℚ) :
    ParallaxState :=
  { options := options
    src := src
    top := top
    beta := 0
    gamma := 0
    start := top - w
    latestKnownScroll := 0
    isImageLoaded := false
    isPainting := false
    imageHeight := 0 }

/-- outerToInnerScroll of the base class (passBottom): divide the scroll
progress past start by window.innerHeight over offset, then shift down by
offset. -/
def outerToInnerScroll (w : ℚ) (st : ParallaxState) (scrollTop : ℚ) : ℚ :=
  let offset := st.options.offset
  let localScroll := scrollTop - st.start
  let position := localScroll / (w / offset)
  position - offset

end CanvasParallax

namespace CanvasParallaxDocument

/-- outerToInnerScroll override of CanvasParallaxDocument. -/
def outerToInnerScroll (st : ParallaxState) (scrollTop : ℚ) : ℚ :=
  scrollTop / st.options.speed

end CanvasParallaxDocument

namespace CanvasParallaxTop

/-- Constructor of CanvasParallaxTop: the base constructor, then start is
overwritten with top. -/
def construct (options : ParallaxOptions) (src : String) (top w : ℚ) :
    ParallaxState :=
  { CanvasParallax.construct options src top w with start := top }

/-- outerToInnerScroll override of CanvasParallaxTop. -/
def outerToInnerScroll (st : ParallaxState) (scrollTop : ℚ) : ℚ :=
  (scrollTop - st.start) / st.options.speed

end CanvasParallaxTop

/-- Dynamic dispatch of this.outerToInnerScroll according to the subclass
the registry instantiated. -/
def outerToInnerScrollOf (mode : StartMode) (w : ℚ) (st : ParallaxState)
    (scrollTop : ℚ) : ℚ :=
  match mode with
  | .passBottom => CanvasParallax.outerToInnerScroll w st scrollTop
  | .document => CanvasParallaxDocument.outerToInnerScroll st scrollTop
  | .passTop => CanvasParallaxTop.outerToInnerScroll st scrollTop

/-- Upper-only tilt clamp used on lines 82 and 83 of render:
the component is replaced by offset when it exceeds offset, and returned
unchanged otherwise (no lower clamp). -/
def clampTilt (v offset : ℚ) : ℚ :=
  if v > offset then offset else v

namespace CanvasParallax

/-- render: round the mapped local offset to y, clamp the tilt pair from
above by offset, bail out (returning no draw and leaving the state alone,
including isPainting) when y exceeds offset, otherwise issue
drawImage(image, beta - offset, y - gamma) and clear isPainting. -/
def render (mode : StartMode) (w : ℚ) (st : ParallaxState) (scrollTop : ℚ) :
    ParallaxState × Option DrawCall :=
  let offset := st.options.offset
  let y : ℤ := round (outerToInnerScrollOf mode w st scrollTop)
  let beta := clampTilt st.beta offset
  let gamma := clampTilt st.gamma offset
  if (y : ℚ) > offset then
    (st, none)
  else
    ({ st with isPainting := false }, some ⟨beta - offset, (y : ℚ) - gamma⟩)

/-- onScroll handler for scroll and touchstart events; scrollTop is the
current document scroll.  It bails out when the scroll is unchanged, a
paint is in flight, the image is scrolled out of view, the scroll has not
reached start, or the image has not loaded; otherwise it records the
scroll, raises isPainting and calls render. -/
def onScroll (mode : StartMode) (w : ℚ) (st : ParallaxState)
    (scrollTop : ℚ) : ParallaxState × Option DrawCall :=
  let isImageOutOfView := scrollTop > st.top + st.imageHeight
  let shouldStart := scrollTop ≥ st.start
  if st.latestKnownScroll = scrollTop ∨ st.isPainting = true ∨
      isImageOutOfView ∨ ¬shouldStart ∨ st.isImageLoaded = false then
    (st, none)
  else
    render mode w
      { st with latestKnownScroll := scrollTop, isPainting := true } scrollTop

/-- onDeviceOrientationChange handler: store the rounded sixths of the event
angles as the tilt pair, then call render at the current document scroll,
with no guard of any kind. -/
def onDeviceOrientationChange (mode : StartMode) (w : ℚ) (st : ParallaxState)
    (beta gamma docScroll : ℚ) : ParallaxState × Option DrawCall :=
  render mode w
    { st with beta := (round (beta / 6) : ℚ), gamma := (round (gamma / 6) : ℚ) }
    docScroll

end CanvasParallax

/-!
Embedding of the older jQuery implementation (parallax.js).  Its Parallax
prototype receives the mode-specific mapping as a localScroll closure, so
the embedding takes that mapping as a function argument.  Its render has no
suppression branch: it always clears the canvas and issues the draw.
-/

/-- Mutable per-instance fields of the older Parallax prototype that its
scroll and render logic reads or writes. -/
structure OldParallaxState where
  offset : ℚ
  top : ℚ
  beta : ℚ
  gamma : ℚ
  start : ℚ
  latestKnownScroll : ℚ
  isImageLoaded : Bool
  imageHeight : ℚ
deriving DecidableEq, Repr

namespace Parallax

/-- render of the older prototype: y is the rounded localScroll minus
offset; the tilt pair is clamped from above by offset; the canvas is
cleared and drawImage(image, beta - offset, y - gamma) is always issued. -/
def render (localScroll : ℚ → ℚ) (st : OldParallaxState) (scrollTop : ℚ) :
    OldParallaxState × Option DrawCall :=
  let offset := st.offset
  let y : ℚ := (round (localScroll scrollTop) : ℚ) - offset
  let beta := clampTilt st.beta offset
  let gamma := clampTilt st.gamma offset
  (st, some ⟨beta - offset, y - gamma⟩)

/-- onScroll of the older prototype: bail out when the image has not loaded
and is scrolled out of view; render only when the scroll has reached
start. -/
def onScroll (localScroll : ℚ → ℚ) (st : OldParallaxState) (scrollTop : ℚ) :
    OldParallaxState × Option DrawCall :=
  if st.isImageLoaded = false ∧ scrollTop > st.top + st.imageHeight then
    (st, none)
  else if scrollTop ≥ st.start then
    render localScroll st scrollTop
  else
    (st, none)

end Parallax

/-!
Embedding of the registry loop at the bottom of the modern file.  For each
canvas element it defines createInstance and then runs:

  if (image.complete) { createInstance(instance); }
  else {
    image.addEventListener('load', createInstance());
    image.removeEventListener('load', createInstance());
  }

In JS the argument position createInstance() is evaluated at once: each of
the two calls in the else branch creates an instance synchronously, while
the image is still loading, and the value registered (and then removed) as
the load listener is undefined, so nothing runs when the load event later
fires.  The embedding records that evaluation order as a list of events.
-/

/-- Observable events of registering one parallax element. -/
inductive RegistryEvent
  | instanceCreated
  | loadHandlerInstalled
deriving DecidableEq, Repr

/-- Registration of one element, given whether image.complete was already
true: the complete branch creates the instance at once; the else branch
evaluates createInstance() twice, synchronously, and installs no working
load handler.  Every event in the returned list happens before any load
event can fire. -/
def registerParallaxElement (complete : Bool) : List RegistryEvent :=
  if complete then
    [.instanceCreated]
  else
    [.instanceCreated, .instanceCreated]

/-- Local offset of the BottomPass mapper as the specification words it,
over elementTop, viewportHeight and offsetCfg, with
triggerStart = elementTop - viewportHeight. -/
def spec.bottomPassLocalOffset (elementTop viewportHeight offsetCfg s : ℚ) :
    ℚ :=
  ((s - (elementTop - viewportHeight)) / (viewportHeight / offsetCfg)) -
    offsetCfg

/-- C1: for a BottomPass instance the constructor sets start to
elementTop - viewportHeight, and outerToInnerScroll returns
((s - triggerStart) / (viewportHeight / offsetCfg)) - offsetCfg for every
global scroll s; with offsetCfg = 60, viewportHeight = 1000 and
elementTop = 2000 the trigger is 1000 and the local offset at global
scroll 1000 is -60. -/
theorem C1_bottomPass_mapper_formula :
    (∀ (options : ParallaxOptions) (src : String) (top w s : ℚ),
      CanvasParallax.outerToInnerScroll w
          (CanvasParallax.construct options src top w) s =
        spec.bottomPassLocalOffset top w options.offset s) ∧
    (CanvasParallax.construct ⟨.passBottom, 60, 5⟩ "" 2000 1000).start =
      1000 ∧
    CanvasParallax.outerToInnerScroll 1000
        (CanvasParallax.construct ⟨.passBottom, 60, 5⟩ "" 2000 1000) 1000 =
      -60 := by
  refine ⟨fun options src top w s => rfl, by norm_num [CanvasParallax.construct], ?_⟩
  norm_num [CanvasParallax.outerToInnerScroll, CanvasParallax.construct]

/-- C8: for a TopPass instance with positive speed, the constructor leaves
start equal to elementTop and outerToInnerScroll returns
(s - elementTop) / speed for every scroll value s. -/
theorem C8_topPass_mapper :
    ∀ (options : ParallaxOptions) (src : String) (top w s : ℚ),
      0 < options.speed →
      (CanvasParallaxTop.construct options src top w).start = top ∧
      CanvasParallaxTop.outerToInnerScroll
          (CanvasParallaxTop.construct options src top w) s =
        (s - top) / options.speed := by
  intro options src top w s _
  exact ⟨rfl, rfl⟩

/-- Witness for C8 at speed 5, elementTop 2000, scroll 3000. -/
theorem C8_topPass_mapper_witness :
    0 < (5 : ℚ) ∧
    ((CanvasParallaxTop.construct ⟨.passTop, 60, 5⟩ "" 2000 1000).start =
        2000 ∧
      CanvasParallaxTop.outerToInnerScroll
          (CanvasParallaxTop.construct ⟨.passTop, 60, 5⟩ "" 2000 1000) 3000 =
        (3000 - 2000) / 5) :=
  ⟨by norm_num,
    C8_topPass_mapper ⟨.passTop, 60, 5⟩ "" 2000 1000 3000 (by norm_num)⟩

/-- C9: evaluating the registry on an element whose image is not yet
complete creates two instances synchronously, before any load event can
fire, and installs no working load handler; this exhibits the bug in the
else branch, which invokes createInstance() instead of passing it. -/
theorem C9_registry_creates_while_loading :
    registerParallaxElement false =
      [RegistryEvent.instanceCreated, RegistryEvent.instanceCreated] ∧
    RegistryEvent.loadHandlerInstalled ∉ registerParallaxElement false :=
  ⟨rfl, by decide⟩

/-- C10: an onScroll step and a render step leave the configuration,
geometry, image source, tilt pair, loaded flag and image height unchanged;
render also leaves latestKnownScroll unchanged. -/
theorem C10_scroll_frame_effect :
    ∀ (mode : StartMode) (w : ℚ) (st : ParallaxState) (s : ℚ),
      ((CanvasParallax.onScroll mode w st s).1.options = st.options ∧
        (CanvasParallax.onScroll mode w st s).1.top = st.top ∧
        (CanvasParallax.onScroll mode w st s).1.start = st.start ∧
        (CanvasParallax.onScroll mode w st s).1.src = st.src ∧
        (CanvasParallax.onScroll mode w st s).1.beta = st.beta ∧
        (CanvasParallax.onScroll mode w st s).1.gamma = st.gamma ∧
        (CanvasParallax.onScroll mode w st s).1.isImageLoaded =
          st.isImageLoaded ∧
        (CanvasParallax.onScroll mode w st s).1.imageHeight =
          st.imageHeight) ∧
      ((CanvasParallax.render mode w st s).1.options = st.options ∧
        (CanvasParallax.render mode w st s).1.top = st.top ∧
        (CanvasParallax.render mode w st s).1.start = st.start ∧
        (CanvasParallax.render mode w st s).1.src = st.src ∧
        (CanvasParallax.render mode w st s).1.beta = st.beta ∧
        (CanvasParallax.render mode w st s).1.gamma = st.gamma ∧
        (CanvasParallax.render mode w st s).1.isImageLoaded =
          st.isImageLoaded ∧
        (CanvasParallax.render mode w st s).1.imageHeight = st.imageHeight ∧
        (CanvasParallax.render mode w st s).1.latestKnownScroll =
          st.latestKnownScroll) := by
  intro mode w st s
  constructor
  · simp only [CanvasParallax.onScroll, CanvasParallax.render]
    split_ifs <;> simp
  · simp only [CanvasParallax.render]
    split_ifs <;> simp

/-- C2: for a BottomPass instance with positive offset and positive
viewport height, outerToInnerScroll is strictly increasing in the global
scroll, and render returns no draw exactly when the rounded local offset
exceeds offset. -/
theorem C2_bottomPass_monotone_suppression :
    ∀ (st : ParallaxState) (w : ℚ),
      0 < st.options.offset → 0 < w →
      StrictMono (fun s => CanvasParallax.outerToInnerScroll w st s) ∧
      ∀ s, ((CanvasParallax.render .passBottom w st s).2 = none ↔
        st.options.offset <
          (round (CanvasParallax.outerToInnerScroll w st s) : ℚ)) := by
  intro st w hoff hw
  constructor
  · intro a b hab
    simp only [CanvasParallax.outerToInnerScroll]
    have hc : 0 < w / st.options.offset := div_pos hw hoff
    exact sub_lt_sub_right
      ((div_lt_div_iff_of_pos_right hc).mpr (sub_lt_sub_right hab _)) _
  · intro s
    simp only [CanvasParallax.render, outerToInnerScrollOf]
    split_ifs with h
    · simpa using h
    · simpa using h

/-- Witness for C2: offset 60 and viewport 1000 are positive, and at global
scroll 5000 on an instance with elementTop 2000 the rounded local offset is
180 and the draw is suppressed. -/
theorem C2_bottomPass_monotone_suppression_witness :
    0 < (60 : ℚ) ∧ 0 < (1000 : ℚ) ∧
    ((CanvasParallax.render .passBottom 1000
        (CanvasParallax.construct ⟨.passBottom, 60, 5⟩ "" 2000 1000) 5000).2 =
        none ↔
      (60 : ℚ) <
        (round (CanvasParallax.outerToInnerScroll 1000
          (CanvasParallax.construct ⟨.passBottom, 60, 5⟩ "" 2000 1000)
          5000) : ℚ)) :=
  ⟨by norm_num, by norm_num,
    (C2_bottomPass_monotone_suppression
      (CanvasParallax.construct ⟨.passBottom, 60, 5⟩ "" 2000 1000) 1000
      (by norm_num [CanvasParallax.construct]) (by norm_num)).2 5000⟩

/-- C3: while the current scroll is below start, neither the modern
onScroll handler (any mode, so in particular BottomPass and TopPass) nor
the older prototype onScroll issues a draw. -/
theorem C3_no_draw_below_trigger :
    (∀ (mode : StartMode) (w : ℚ) (st : ParallaxState) (s : ℚ),
      s < st.start → (CanvasParallax.onScroll mode w st s).2 = none) ∧
    (∀ (localScroll : ℚ → ℚ) (st : OldParallaxState) (s : ℚ),
      s < st.start → (Parallax.onScroll localScroll st s).2 = none) := by
  constructor
  · intro mode w st s hs
    simp only [CanvasParallax.onScroll]
    split_ifs with h1
    · rfl
    · exact absurd (Or.inr (Or.inr (Or.inr (Or.inl (not_le.mpr hs))))) h1
  · intro localScroll st s hs
    simp only [Parallax.onScroll]
    split_ifs with h1 h2
    · rfl
    · exact absurd h2 (not_le.mpr hs)
    · rfl

/-- Witness for C3: a BottomPass instance with trigger 1000 and an old
prototype instance with start 1000 both skip the draw at scroll 500. -/
theorem C3_no_draw_below_trigger_witness :
    (500 : ℚ) <
      (CanvasParallax.construct ⟨.passBottom, 60, 5⟩ "" 2000 1000).start ∧
    (CanvasParallax.onScroll .passBottom 1000
      (CanvasParallax.construct ⟨.passBottom, 60, 5⟩ "" 2000 1000) 500).2 =
      none ∧
    (500 : ℚ) <
      (⟨40, 2000, 0, 0, 1000, 0, true, 500⟩ : OldParallaxState).start ∧
    (Parallax.onScroll (fun s => s / 5)
      (⟨40, 2000, 0, 0, 1000, 0, true, 500⟩ : OldParallaxState) 500).2 =
      none :=
  ⟨by norm_num [CanvasParallax.construct],
    C3_no_draw_below_trigger.1 .passBottom 1000
      (CanvasParallax.construct ⟨.passBottom, 60, 5⟩ "" 2000 1000) 500
      (by norm_num [CanvasParallax.construct]),
    by norm_num,
    C3_no_draw_below_trigger.2 (fun s => s / 5)
      (⟨40, 2000, 0, 0, 1000, 0, true, 500⟩ : OldParallaxState) 500
      (by norm_num)⟩

/-- C4: on a Ready instance, of two consecutive scroll events with the same
scroll value the second never draws (so the pair triggers exactly the first
event's draw, at most one); and there is a Ready state on which the first
event does draw. -/
theorem C4_same_scroll_single_draw :
    (∀ (mode : StartMode) (w : ℚ) (st : ParallaxState) (s : ℚ),
      st.isImageLoaded = true →
      (CanvasParallax.onScroll mode w
        (CanvasParallax.onScroll mode w st s).1 s).2 = none) ∧
    (CanvasParallax.onScroll .passBottom 1000
      { CanvasParallax.construct ⟨.passBottom, 60, 5⟩ "" 2000 1000 with
        isImageLoaded := true, imageHeight := 1000 } 1500).2.isSome =
      true := by
  constructor
  · intro mode w st s _
    simp only [CanvasParallax.onScroll, CanvasParallax.render]
    split_ifs <;> simp_all
  · simp only [CanvasParallax.onScroll, CanvasParallax.render,
      outerToInnerScrollOf, CanvasParallax.outerToInnerScroll,
      CanvasParallax.construct, clampTilt]
    norm_num [round_eq]

/-- Witness for C4 on a Ready BottomPass instance at scroll 1500. -/
theorem C4_same_scroll_single_draw_witness :
    ({ CanvasParallax.construct ⟨.passBottom, 60, 5⟩ "" 2000 1000 with
        isImageLoaded := true, imageHeight := 1000 } :
      ParallaxState).isImageLoaded = true ∧
    (CanvasParallax.onScroll .passBottom 1000
      (CanvasParallax.onScroll .passBottom 1000
        { CanvasParallax.construct ⟨.passBottom, 60, 5⟩ "" 2000 1000 with
          isImageLoaded := true, imageHeight := 1000 } 1500).1 1500).2 =
      none :=
  ⟨by simp [CanvasParallax.construct],
    C4_same_scroll_single_draw.1 .passBottom 1000
      { CanvasParallax.construct ⟨.passBottom, 60, 5⟩ "" 2000 1000 with
        isImageLoaded := true, imageHeight := 1000 } 1500
      (by simp [CanvasParallax.construct])⟩

/-- Ready BottomPass instance (offset 60, viewport 1000, elementTop 2000,
image height 10000) used to exhibit the stale in-flight flag. -/
def staleFlagState : ParallaxState :=
  { CanvasParallax.construct ⟨.passBottom, 60, 5⟩ "" 2000 1000 with
    isImageLoaded := true, imageHeight := 10000 }

/-- C5: evaluation of the code at the failing input.  Scrolling to 5000
passes the onScroll guards and raises isPainting, render suppresses the
draw because the rounded local offset is 180 > 60, but its early return
leaves isPainting raised; the later scroll to 1500 is then rejected, and
rejected solely because of the stale flag: the same event with the flag
cleared draws. -/
theorem C5_stale_inflight_flag :
    (CanvasParallax.onScroll .passBottom 1000 staleFlagState 5000).2 =
      none ∧
    (CanvasParallax.onScroll .passBottom 1000
      staleFlagState 5000).1.isPainting = true ∧
    (CanvasParallax.onScroll .passBottom 1000
      (CanvasParallax.onScroll .passBottom 1000 staleFlagState 5000).1
      1500).2 = none ∧
    (CanvasParallax.onScroll .passBottom 1000
      { (CanvasParallax.onScroll .passBottom 1000 staleFlagState 5000).1 with
        isPainting := false } 1500).2.isSome = true := by
  refine ⟨?_, ?_, ?_, ?_⟩ <;>
    · simp only [staleFlagState, CanvasParallax.onScroll,
        CanvasParallax.render, outerToInnerScrollOf,
        CanvasParallax.outerToInnerScroll, CanvasParallax.construct,
        clampTilt]
      norm_num [round_eq]

/-- C6 counterexample: a freshly constructed BottomPass instance has the
loaded flag down, yet a device-orientation event issues a draw call. -/
theorem C6_orientation_draws_before_load :
    (CanvasParallax.construct
      ⟨.passBottom, 60, 5⟩ "" 2000 1000).isImageLoaded = false ∧
    (CanvasParallax.onDeviceOrientationChange .passBottom 1000
      (CanvasParallax.construct ⟨.passBottom, 60, 5⟩ "" 2000 1000)
      0 0 1000).2.isSome = true := by
  constructor
  · simp [CanvasParallax.construct]
  · simp only [CanvasParallax.onDeviceOrientationChange,
      CanvasParallax.render, outerToInnerScrollOf,
      CanvasParallax.outerToInnerScroll, CanvasParallax.construct,
      clampTilt]
    norm_num [round_eq]

/-- C6 amended: scroll and touch events arriving before the first image
load are ignored without a draw, but device-orientation events are not
gated on the loaded flag: the handler stores the rounded tilt and calls
render unconditionally, so it can issue a draw before the first load. -/
theorem C6_scroll_gated_orientation_not :
    (∀ (mode : StartMode) (w : ℚ) (st : ParallaxState) (s : ℚ),
      st.isImageLoaded = false →
      (CanvasParallax.onScroll mode w st s).2 = none) ∧
    (∀ (mode : StartMode) (w : ℚ) (st : ParallaxState) (b g d : ℚ),
      CanvasParallax.onDeviceOrientationChange mode w st b g d =
        CanvasParallax.render mode w
          { st with beta := (round (b / 6) : ℚ),
                    gamma := (round (g / 6) : ℚ) } d) := by
  constructor
  · intro mode w st s h
    simp only [CanvasParallax.onScroll]
    split_ifs with h1
    · rfl
    · exact absurd (Or.inr (Or.inr (Or.inr (Or.inr h)))) h1
  · intro mode w st b g d
    rfl

/-- Witness for C6 amended: a freshly constructed instance is not loaded
and its scroll event at 1500 draws nothing. -/
theorem C6_scroll_gated_orientation_not_witness :
    (CanvasParallax.construct
      ⟨.passBottom, 60, 5⟩ "" 2000 1000).isImageLoaded = false ∧
    (CanvasParallax.onScroll .passBottom 1000
      (CanvasParallax.construct ⟨.passBottom, 60, 5⟩ "" 2000 1000)
      1500).2 = none :=
  ⟨by simp [CanvasParallax.construct],
    C6_scroll_gated_orientation_not.1 .passBottom 1000
      (CanvasParallax.construct ⟨.passBottom, 60, 5⟩ "" 2000 1000) 1500
      (by simp [CanvasParallax.construct])⟩

/-- C7: an orientation event stores round(beta / 6) and round(gamma / 6)
as the tilt pair; the clamp used by render caps a component from above
only, leaving any component not exceeding the bound — in particular any
component below the negated bound — unchanged; concretely, beta 600 and
gamma -600 store (100, -100), and clamping against 60 gives (60, -100). -/
theorem C7_tilt_store_and_clamp :
    (∀ (mode : StartMode) (w : ℚ) (st : ParallaxState) (b g d : ℚ),
      (CanvasParallax.onDeviceOrientationChange mode w st b g d).1.beta =
          (round (b / 6) : ℚ) ∧
      (CanvasParallax.onDeviceOrientationChange mode w st b g d).1.gamma =
          (round (g / 6) : ℚ)) ∧
    (∀ v m : ℚ, m < v → clampTilt v m = m) ∧
    (∀ v m : ℚ, 0 ≤ m → v < -m → clampTilt v m = v) ∧
    ((round ((600 : ℚ) / 6) : ℚ) = 100 ∧
      (round ((-600 : ℚ) / 6) : ℚ) = -100 ∧
      clampTilt 100 60 = 60 ∧ clampTilt (-100) 60 = -100) := by
  refine ⟨?_, ?_, ?_, ?_, ?_, ?_, ?_⟩
  · intro mode w st b g d
    constructor <;>
      · simp only [CanvasParallax.onDeviceOrientationChange,
          CanvasParallax.render]
        split_ifs <;> simp
  · intro v m h
    simp [clampTilt, h]
  · intro v m hm hv
    have : ¬ m < v := by linarith
    simp [clampTilt, this]
  · norm_num [round_eq]
  · norm_num [round_eq]
  · norm_num [clampTilt]
  · norm_num [clampTilt]

/-- Witness for C7: the clamp caps 100 at 60 and leaves -100 (which is
below -60) unchanged. -/
theorem C7_tilt_store_and_clamp_witness :
    ((60 : ℚ) < 100 ∧ clampTilt 100 60 = 60) ∧
    ((0 : ℚ) ≤ 60 ∧ (-100 : ℚ) < -60 ∧ clampTilt (-100) 60 = -100) :=
  ⟨⟨by norm_num, C7_tilt_store_and_clamp.2.1 100 60 (by norm_num)⟩,
    ⟨by norm_num, by norm_num,
      C7_tilt_store_and_clamp.2.2.1 (-100) 60 (by norm_num) (by norm_num)⟩⟩
